import Mathlib

/-!
Verification development for the RepackKing catalog and moderation server.

The server is a REST API over a relational store: games (with genres,
screenshots, ratings, analytics events) plus a moderation subsystem
(user reports and DMCA notices with tracking identifiers) and an
analytics dashboard.  The definitions below are a shallow embedding of
the route handlers and SQL statements; database tables are lists of row
structures, SQL NULL is Option.none, and request-body fields carry an
explicit three-way undefined / null / value shape mirroring dynamic
JavaScript request bodies.
-/

namespace RepackKing

/-- Value of a field of a JSON request body as seen by the handler:
absent (undefined), explicit null, or an actual value. -/
inductive JsVal (α : Type) where
  | undef : JsVal α
  | null : JsVal α
  | val : α → JsVal α
  deriving DecidableEq, Repr

/-- JavaScript truthiness of a string-valued body field: undefined, null
and the empty string are falsy; every other string is truthy. -/
def JsVal.truthy : JsVal String → Bool
  | .val s => !(s == "")
  | _ => false

/-- Embedding of the JavaScript expression (x !== undefined ? x : old)
followed by SQL binding, where binding a JS null stores SQL NULL.
Used by the game update statement for all nullable columns. -/
def mergeKeep (p : JsVal String) (old : Option String) : Option String :=
  match p with
  | .undef => old
  | .null => none
  | .val s => some s

/-- Same merge for the integer byte-size column. -/
def mergeKeepInt (p : JsVal Int) (old : Option Int) : Option Int :=
  match p with
  | .undef => old
  | .null => none
  | .val n => some n

/-- Embedding of the JavaScript expression (x || old) for a string column
that is NOT NULL: a falsy provided value (undefined, null, empty string)
falls back to the stored value. -/
def jsOrElse (p : JsVal String) (old : String) : String :=
  match p with
  | .val s => if s = "" then old else s
  | _ => old

/-- Embedding of the JavaScript expression (x || null) used at game
creation: a falsy value is stored as SQL NULL. -/
def jsOrNull (p : JsVal String) : Option String :=
  match p with
  | .val s => if s = "" then none else some s
  | _ => none

/-- Embedding of (x || 0) for the byte-size column at game creation. -/
def jsOrZero (p : JsVal Int) : Int :=
  match p with
  | .val n => if n = 0 then 0 else n
  | _ => 0

/-- Row of the games table (columns as in the migrations; NULL is none). -/
structure GameRow where
  id : Nat
  title : String
  slug : String
  description : Option String
  cover_image : Option String
  size_bytes : Option Int
  magnet_uri : Option String
  version : Option String
  min_cpu : Option String
  min_gpu : Option String
  min_ram : Option String
  min_storage : Option String
  min_os : Option String
  rec_cpu : Option String
  rec_gpu : Option String
  rec_ram : Option String
  rec_storage : Option String
  rec_os : Option String
  created_at : String
  updated_at : String
  deriving DecidableEq, Repr

/-- Scalar fields of the body of PUT /api/games/:id (the genre and
screenshot lists are reconciled separately and modelled below). -/
structure GameUpdateBody where
  title : JsVal String
  description : JsVal String
  cover_image : JsVal String
  size_bytes : JsVal Int
  magnet_uri : JsVal String
  version : JsVal String
  min_cpu : JsVal String
  min_gpu : JsVal String
  min_ram : JsVal String
  min_storage : JsVal String
  min_os : JsVal String
  rec_cpu : JsVal String
  rec_gpu : JsVal String
  rec_ram : JsVal String
  rec_storage : JsVal String
  rec_os : JsVal String
  deriving DecidableEq, Repr

/-- Embedding of the UPDATE statement of PUT /api/games/:id: every
bound parameter is the ternary merge from the handler, the slug column
is absent from the SET list, and updated_at is set to the current time. -/
def updateGame (existing : GameRow) (b : GameUpdateBody) (now : String) : GameRow :=
  { id := existing.id
    title := jsOrElse b.title existing.title
    slug := existing.slug
    description := mergeKeep b.description existing.description
    cover_image := mergeKeep b.cover_image existing.cover_image
    size_bytes := mergeKeepInt b.size_bytes existing.size_bytes
    magnet_uri := mergeKeep b.magnet_uri existing.magnet_uri
    version := mergeKeep b.version existing.version
    min_cpu := mergeKeep b.min_cpu existing.min_cpu
    min_gpu := mergeKeep b.min_gpu existing.min_gpu
    min_ram := mergeKeep b.min_ram existing.min_ram
    min_storage := mergeKeep b.min_storage existing.min_storage
    min_os := mergeKeep b.min_os existing.min_os
    rec_cpu := mergeKeep b.rec_cpu existing.rec_cpu
    rec_gpu := mergeKeep b.rec_gpu existing.rec_gpu
    rec_ram := mergeKeep b.rec_ram existing.rec_ram
    rec_storage := mergeKeep b.rec_storage existing.rec_storage
    rec_os := mergeKeep b.rec_os existing.rec_os
    created_at := existing.created_at
    updated_at := now }

/-- Scalar fields of the body of POST /api/games; the handler rejects a
falsy title before reaching the INSERT, so the title here is the
accepted (non-empty) one. -/
structure GameCreateBody where
  title : String
  description : JsVal String
  cover_image : JsVal String
  size_bytes : JsVal Int
  magnet_uri : JsVal String
  version : JsVal String
  min_cpu : JsVal String
  min_gpu : JsVal String
  min_ram : JsVal String
  min_storage : JsVal String
  min_os : JsVal String
  rec_cpu : JsVal String
  rec_gpu : JsVal String
  rec_ram : JsVal String
  rec_storage : JsVal String
  rec_os : JsVal String
  deriving DecidableEq, Repr

/-- Embedding of the INSERT of POST /api/games: the slug is a freshly
generated random identifier (passed in, since randomness is external),
optional fields default to NULL via (x || null) and byte size to 0. -/
def createGame (b : GameCreateBody) (slug : String) (gameId : Nat) (now : String) : GameRow :=
  { id := gameId
    title := b.title
    slug := slug
    description := jsOrNull b.description
    cover_image := jsOrNull b.cover_image
    size_bytes := some (jsOrZero b.size_bytes)
    magnet_uri := jsOrNull b.magnet_uri
    version := jsOrNull b.version
    min_cpu := jsOrNull b.min_cpu
    min_gpu := jsOrNull b.min_gpu
    min_ram := jsOrNull b.min_ram
    min_storage := jsOrNull b.min_storage
    min_os := jsOrNull b.min_os
    rec_cpu := jsOrNull b.rec_cpu
    rec_gpu := jsOrNull b.rec_gpu
    rec_ram := jsOrNull b.rec_ram
    rec_storage := jsOrNull b.rec_storage
    rec_os := jsOrNull b.rec_os
    created_at := now
    updated_at := now }

/-- Pairs of (body field accessor, row column accessor) for the columns
of the update statement that follow the undefined-check merge and store
NULL for a provided null. -/
def updatableOptFields : List ((GameUpdateBody → JsVal String) × (GameRow → Option String)) :=
  [(fun b => b.description, fun g => g.description),
   (fun b => b.cover_image, fun g => g.cover_image),
   (fun b => b.magnet_uri, fun g => g.magnet_uri),
   (fun b => b.version, fun g => g.version),
   (fun b => b.min_cpu, fun g => g.min_cpu),
   (fun b => b.min_gpu, fun g => g.min_gpu),
   (fun b => b.min_ram, fun g => g.min_ram),
   (fun b => b.min_storage, fun g => g.min_storage),
   (fun b => b.min_os, fun g => g.min_os),
   (fun b => b.rec_cpu, fun g => g.rec_cpu),
   (fun b => b.rec_gpu, fun g => g.rec_gpu),
   (fun b => b.rec_ram, fun g => g.rec_ram),
   (fun b => b.rec_storage, fun g => g.rec_storage),
   (fun b => b.rec_os, fun g => g.rec_os)]

/-- Sample game row used for concrete counterexamples and witnesses. -/
def sampleGame : GameRow :=
  { id := 1
    title := "Old Title"
    slug := "3f2c8e1a-guid"
    description := some "old description"
    cover_image := some "/uploads/old.png"
    size_bytes := some 100
    magnet_uri := none
    version := some "1.0"
    min_cpu := none
    min_gpu := none
    min_ram := none
    min_storage := none
    min_os := none
    rec_cpu := none
    rec_gpu := none
    rec_ram := none
    rec_storage := none
    rec_os := none
    created_at := "2026-01-01"
    updated_at := "2026-01-01" }

/-- Update body with every field omitted. -/
def bodyAllOmitted : GameUpdateBody :=
  { title := .undef
    description := .undef
    cover_image := .undef
    size_bytes := .undef
    magnet_uri := .undef
    version := .undef
    min_cpu := .undef
    min_gpu := .undef
    min_ram := .undef
    min_storage := .undef
    min_os := .undef
    rec_cpu := .undef
    rec_gpu := .undef
    rec_ram := .undef
    rec_storage := .undef
    rec_os := .undef }

/-- Update body supplying a mix of values, nulls and an empty title. -/
def bodyProvided : GameUpdateBody :=
  { bodyAllOmitted with
    title := .val "New Title"
    description := .val "new description"
    cover_image := .null
    size_bytes := .val 5
    version := .val "" }

/-- Update body whose title is a supplied empty string. -/
def bodyEmptyTitle : GameUpdateBody :=
  { bodyAllOmitted with title := .val "" }

/-- Claim C3, counterexample: the title column does not follow the
omitted-keep / provided-overwrite rule.  The handler binds it with a
truthiness fallback, so a supplied empty-string title is silently
replaced by the stored title instead of being written. -/
theorem update_title_empty_string_kept_cex :
    bodyEmptyTitle.title = JsVal.val "" ∧
      (updateGame sampleGame bodyEmptyTitle "2026-02-02").title = "Old Title" ∧
      (updateGame sampleGame bodyEmptyTitle "2026-02-02").title ≠ "" := by
  refine ⟨rfl, by decide, by decide⟩

/-- Claim C3 (amended): for description, cover image, byte size, magnet
link, version and the ten requirement fields the update merge is
independent per field: an omitted field keeps the stored value and a
provided field overwrites it, including a provided null (stored as NULL)
or empty string.  The title instead keeps the stored value whenever the
provided value is falsy (omitted, null, or empty string) and overwrites
only with a non-empty string. -/
theorem update_partial_merge_amended :
    (∀ pr ∈ updatableOptFields, ∀ (g : GameRow) (b : GameUpdateBody) (now : String),
      (pr.1 b = JsVal.undef → pr.2 (updateGame g b now) = pr.2 g) ∧
      (pr.1 b = JsVal.null → pr.2 (updateGame g b now) = none) ∧
      (∀ v, pr.1 b = JsVal.val v → pr.2 (updateGame g b now) = some v)) ∧
    (∀ (g : GameRow) (b : GameUpdateBody) (now : String),
      (b.size_bytes = JsVal.undef → (updateGame g b now).size_bytes = g.size_bytes) ∧
      (b.size_bytes = JsVal.null → (updateGame g b now).size_bytes = none) ∧
      (∀ n, b.size_bytes = JsVal.val n → (updateGame g b now).size_bytes = some n)) ∧
    (∀ (g : GameRow) (b : GameUpdateBody) (now : String),
      ((b.title = JsVal.undef ∨ b.title = JsVal.null ∨ b.title = JsVal.val "") →
        (updateGame g b now).title = g.title) ∧
      (∀ v, b.title = JsVal.val v → v ≠ "" → (updateGame g b now).title = v)) := by
  refine ⟨?_, ?_, ?_⟩
  · intro pr hpr g b now
    fin_cases hpr <;>
      refine ⟨fun h => ?_, fun h => ?_, fun v h => ?_⟩ <;>
        (simp only [] at h; simp [updateGame, mergeKeep, h])
  · intro g b now
    exact ⟨fun h => by simp [updateGame, mergeKeepInt, h],
           fun h => by simp [updateGame, mergeKeepInt, h],
           fun n h => by simp [updateGame, mergeKeepInt, h]⟩
  · intro g b now
    constructor
    · rintro (h | h | h) <;> simp [updateGame, jsOrElse, h]
    · intro v h hv
      simp [updateGame, jsOrElse, h, hv]

/-- Claim C3, witness: concrete instances of the amended merge rule. -/
theorem update_partial_merge_amended_witness :
    (updateGame sampleGame bodyAllOmitted "2026-02-02").description = sampleGame.description ∧
      (updateGame sampleGame bodyProvided "2026-02-02").description = some "new description" ∧
      (updateGame sampleGame bodyProvided "2026-02-02").cover_image = none ∧
      (updateGame sampleGame bodyProvided "2026-02-02").version = some "" ∧
      (updateGame sampleGame bodyProvided "2026-02-02").size_bytes = some 5 ∧
      (updateGame sampleGame bodyAllOmitted "2026-02-02").size_bytes = sampleGame.size_bytes ∧
      (updateGame sampleGame bodyAllOmitted "2026-02-02").title = sampleGame.title ∧
      (updateGame sampleGame bodyProvided "2026-02-02").title = "New Title" := by
  obtain ⟨hopt, hsize, htitle⟩ := update_partial_merge_amended
  have h1 := (hopt _ (List.Mem.head _) sampleGame bodyAllOmitted "2026-02-02").1 rfl
  have h2 := (hopt _ (List.Mem.head _) sampleGame bodyProvided "2026-02-02").2.2
    "new description" rfl
  have h3 := (hopt _ (List.Mem.tail _ (List.Mem.head _)) sampleGame bodyProvided
    "2026-02-02").2.1 rfl
  have h4 := (hopt _ (List.Mem.tail _ (List.Mem.tail _ (List.Mem.tail _ (List.Mem.head _))))
    sampleGame bodyProvided "2026-02-02").2.2 "" rfl
  have h5 := (hsize sampleGame bodyProvided "2026-02-02").2.2 5 rfl
  have h6 := (hsize sampleGame bodyAllOmitted "2026-02-02").1 rfl
  have h7 := (htitle sampleGame bodyAllOmitted "2026-02-02").1 (Or.inl rfl)
  have h8 := (htitle sampleGame bodyProvided "2026-02-02").2 "New Title" rfl (by decide)
  exact ⟨h1, h2, h3, h4, h5, h6, h7, h8⟩

/-- The update statement never touches the slug column. -/
theorem updateGame_slug (g : GameRow) (b : GameUpdateBody) (now : String) :
    (updateGame g b now).slug = g.slug := rfl

/-- Claim C5: the slug assigned at creation survives every subsequent
sequence of updates unchanged; the slug column is simply absent from the
update statement, so every read after any number of updates returns the
creation slug. -/
theorem slug_immutable_through_updates (b : GameCreateBody) (slug : String)
    (gameId : Nat) (now : String) (ups : List (GameUpdateBody × String)) :
    (ups.foldl (fun g u => updateGame g u.1 u.2) (createGame b slug gameId now)).slug
      = slug := by
  suffices h : ∀ (g : GameRow), (ups.foldl (fun g u => updateGame g u.1 u.2) g).slug = g.slug by
    rw [h]; rfl
  intro g
  induction ups generalizing g with
  | nil => rfl
  | cons u rest ih => rw [List.foldl_cons, ih, updateGame_slug]

/-- Membership of a character in the class [a-z0-9] tested by the slug
derivation after lower-casing. -/
def isSlugChar (c : Char) : Bool :=
  ('a' ≤ c && c ≤ 'z') || ('0' ≤ c && c ≤ '9')

/-- Replacement of every maximal run of characters outside [a-z0-9] by a
single hyphen: the global regex replace of the plus-quantified negated
class in the slug derivation. -/
def collapseRuns : List Char → List Char
  | [] => []
  | [c] => if isSlugChar c then [c] else ['-']
  | c :: d :: rest =>
    if isSlugChar c then c :: collapseRuns (d :: rest)
    else if isSlugChar d then '-' :: collapseRuns (d :: rest)
    else collapseRuns (d :: rest)

/-- Removal of one leading hyphen, half of the anchored edge-hyphen
replace: each anchor of the regex can consume at most one character. -/
def dropLeadHyphen : List Char → List Char
  | '-' :: t => t
  | l => l

/-- Removal of one leading and one trailing hyphen. -/
def stripEdgeHyphens (l : List Char) : List Char :=
  (dropLeadHyphen (dropLeadHyphen l).reverse).reverse

/-- Slug derived from a genre name: lower-case, collapse non-alphanumeric
runs to single hyphens, strip edge hyphens.  Lower-casing is ASCII as in
Char.toLower; a non-ASCII letter is outside [a-z0-9] after either
lower-casing and collapses to a hyphen the same way in both readings. -/
def createSlug (name : String) : String :=
  String.mk (stripEdgeHyphens (collapseRuns (name.toList.map Char.toLower)))

/-- Row of the genres table. -/
structure Genre where
  id : Nat
  name : String
  slug : String
  deriving DecidableEq, Repr

/-- The genres table together with the next id the autoincrement column
would assign. -/
structure GenreTable where
  rows : List Genre
  nextId : Nat
  deriving DecidableEq, Repr

/-- Embedding of the ensure-genre step shared by POST /api/genres/ensure
and the genre reconciliation loop of game create/update: select a genre
row by the derived slug, insert a fresh row when none is found, and
return the genre id. -/
def ensureGenre (t : GenreTable) (name : String) : GenreTable × Nat :=
  match t.rows.find? (fun g => g.slug == createSlug name) with
  | some g => (t, g.id)
  | none => (⟨t.rows ++ [⟨t.nextId, name, createSlug name⟩], t.nextId + 1⟩, t.nextId)

/-- A sequence of ensure calls: both the bulk ensure endpoint and every
genre reconciliation reduce to this as far as the genres table is
concerned (reconciliation additionally rewrites the junction table but
never deletes or alters genre rows). -/
def runEnsures (t : GenreTable) (names : List String) : GenreTable :=
  names.foldl (fun acc n => (ensureGenre acc n).1) t

/-- Slug uniqueness across the genres table: the UNIQUE constraint on
the slug column. -/
def slugsNodup (t : GenreTable) : Prop :=
  (t.rows.map (fun g => g.slug)).Nodup

instance (t : GenreTable) : Decidable (slugsNodup t) := by
  unfold slugsNodup; infer_instance

theorem ensureGenre_mem (t : GenreTable) (n : String) (g : Genre) (hg : g ∈ t.rows) :
    g ∈ (ensureGenre t n).1.rows := by
  unfold ensureGenre
  cases hfind : t.rows.find? (fun x => x.slug == createSlug n) with
  | some x => exact hg
  | none => exact List.mem_append.mpr (Or.inl hg)

theorem ensureGenre_nodup (t : GenreTable) (n : String) (h : slugsNodup t) :
    slugsNodup (ensureGenre t n).1 := by
  unfold ensureGenre
  cases hfind : t.rows.find? (fun x => x.slug == createSlug n) with
  | some x => exact h
  | none =>
    have habs : ∀ g ∈ t.rows, g.slug ≠ createSlug n := by
      intro g hg
      have := List.find?_eq_none.mp hfind g hg
      simpa using this
    unfold slugsNodup at h ⊢
    simp only [List.map_append, List.map_cons, List.map_nil]
    rw [List.nodup_append]
    refine ⟨h, List.nodup_singleton _, ?_⟩
    intro s hs
    simp only [List.mem_map] at hs
    obtain ⟨g, hg, rfl⟩ := hs
    simp only [List.mem_singleton, List.mem_cons, List.not_mem_nil, or_false]
    exact habs g hg

theorem ensureGenre_found (t : GenreTable) (n : String) (g : Genre)
    (hnd : slugsNodup t) (hg : g ∈ t.rows) (hslug : g.slug = createSlug n) :
    ensureGenre t n = (t, g.id) := by
  unfold ensureGenre
  cases hfind : t.rows.find? (fun x => x.slug == createSlug n) with
  | some x =>
    have hx : x ∈ t.rows := List.mem_of_find?_eq_some hfind
    have hxs : x.slug = createSlug n := by
      have := List.find?_some hfind
      simpa using this
    have hxg : x = g :=
      List.inj_on_of_nodup_map hnd hx hg (hxs.trans hslug.symm)
    rw [hxg]
  | none =>
    exfalso
    have := List.find?_eq_none.mp hfind g hg
    simp [hslug] at this

theorem ensureGenre_provides (t : GenreTable) (n : String) :
    ∃ g ∈ (ensureGenre t n).1.rows, g.slug = createSlug n ∧ g.id = (ensureGenre t n).2 := by
  unfold ensureGenre
  cases hfind : t.rows.find? (fun x => x.slug == createSlug n) with
  | some x =>
    refine ⟨x, List.mem_of_find?_eq_some hfind, ?_, rfl⟩
    have := List.find?_some hfind
    simpa using this
  | none =>
    exact ⟨⟨t.nextId, n, createSlug n⟩, List.mem_append.mpr (Or.inr (List.mem_singleton.mpr rfl)),
      rfl, rfl⟩

theorem runEnsures_mem_nodup (ops : List String) (t : GenreTable) (g : Genre)
    (hg : g ∈ t.rows) (hnd : slugsNodup t) :
    g ∈ (runEnsures t ops).rows ∧ slugsNodup (runEnsures t ops) := by
  induction ops generalizing t with
  | nil => exact ⟨hg, hnd⟩
  | cons n rest ih =>
    exact ih (ensureGenre t n).1 (ensureGenre_mem t n g hg) (ensureGenre_nodup t n hnd)

/-- Counting lemma: under slug uniqueness a slug held by a member row is
held by exactly one row. -/
theorem filter_eq_slug_length_one (l : List Genre) (s : String)
    (hnd : (l.map (fun x => x.slug)).Nodup) (g : Genre) (hg : g ∈ l) (hs : g.slug = s) :
    (l.filter (fun x => x.slug == s)).length = 1 := by
  induction l with
  | nil => cases hg
  | cons x rest ih =>
    rw [List.map_cons, List.nodup_cons] at hnd
    obtain ⟨hxnot, hndrest⟩ := hnd
    rcases List.mem_cons.mp hg with rfl | hgrest
    · have hnone : rest.filter (fun y => y.slug == s) = [] := by
        rw [List.filter_eq_nil_iff]
        intro y hy hcontra
        apply hxnot
        refine List.mem_map.mpr ⟨y, hy, ?_⟩
        rw [hs]
        exact beq_iff_eq.mp hcontra
      rw [List.filter_cons, if_pos (by simp [hs]), hnone]
      rfl
    · have hxne : ¬((x.slug == s) = true) := by
        simp only [beq_iff_eq]
        intro hcontra
        apply hxnot
        exact List.mem_map.mpr ⟨g, hgrest, by rw [hs, hcontra]⟩
      rw [List.filter_cons, if_neg hxne]
      exact ih hndrest hgrest

theorem filter_slug_length_one (t : GenreTable) (hnd : slugsNodup t) (g : Genre)
    (hg : g ∈ t.rows) :
    (t.rows.filter (fun x => x.slug == g.slug)).length = 1 :=
  filter_eq_slug_length_one t.rows g.slug hnd g hg rfl

/-- Claim C4: two genre names deriving the same slug resolve to the same
genre id through the ensure operation, with any run of further ensure
calls (bulk ensure or genre reconciliation) in between, and afterwards
exactly one genre row carries that slug. -/
theorem ensure_genre_same_slug_same_id (t t1 t2 t3 : GenreTable) (i1 i2 : Nat)
    (n1 n2 : String) (ops : List String)
    (hinv : slugsNodup t)
    (hs : createSlug n1 = createSlug n2)
    (h1 : ensureGenre t n1 = (t1, i1))
    (h2 : runEnsures t1 ops = t2)
    (h3 : ensureGenre t2 n2 = (t3, i2)) :
    i1 = i2 ∧ (t3.rows.filter (fun g => g.slug == createSlug n1)).length = 1 := by
  obtain ⟨g, hgmem, hgslug, hgid⟩ := ensureGenre_provides t n1
  rw [h1] at hgmem hgid
  have hnd1 : slugsNodup t1 := by
    have := ensureGenre_nodup t n1 hinv
    rwa [h1] at this
  have hrun := runEnsures_mem_nodup ops t1 g hgmem hnd1
  rw [h2] at hrun
  obtain ⟨hgmem2, hnd2⟩ := hrun
  have hfound := ensureGenre_found t2 n2 g hnd2 hgmem2 (hgslug.trans hs)
  rw [h3] at hfound
  injection hfound with ht3 hi2
  constructor
  · rw [hi2]; exact hgid.symm
  · rw [ht3]
    have hone := filter_slug_length_one t2 hnd2 g hgmem2
    rwa [hgslug] at hone

/-- Claim C4, witness: two spellings of the same genre name, with other
ensure calls interleaved, concretely yield one shared id and one row. -/
theorem ensure_genre_same_slug_same_id_witness :
    (ensureGenre ⟨[], 1⟩ "Sci-Fi!").2
        = (ensureGenre (runEnsures (ensureGenre ⟨[], 1⟩ "Sci-Fi!").1 ["Action", "sci fi"])
            "SCI  Fi").2 ∧
      ((ensureGenre (runEnsures (ensureGenre ⟨[], 1⟩ "Sci-Fi!").1 ["Action", "sci fi"])
          "SCI  Fi").1.rows.filter (fun g => g.slug == createSlug "Sci-Fi!")).length = 1 :=
  ensure_genre_same_slug_same_id ⟨[], 1⟩ _ _ _ _ _ "Sci-Fi!" "SCI  Fi"
    ["Action", "sci fi"] (by decide) (by decide) rfl rfl rfl

/-- Row of the game_reports table. -/
structure ReportRow where
  id : Nat
  game_id : Nat
  tracking_id : Option String
  report_type : String
  description : Option String
  email : Option String
  status : String
  admin_notes : Option String
  public_note : Option String
  created_at : String
  updated_at : String
  deriving DecidableEq, Repr

/-- Row of the dmca_notices table. -/
structure NoticeRow where
  id : Nat
  game_id : Option Nat
  tracking_id : Option String
  content_name : String
  content_url : Option String
  company_name : String
  full_name : String
  email : String
  phone : Option String
  description : Option String
  status : String
  admin_notes : Option String
  public_note : Option String
  created_at : String
  updated_at : String
  deriving DecidableEq, Repr

/-- WHERE clause of the admin report listing: an explicit status filter
wins; otherwise resolved and dismissed rows are hidden unless the
includeResolved flag is set.  The absent query parameter is the empty
string (both are falsy in the handler). -/
def reportListKeep (status : String) (includeResolved : Bool) (r : ReportRow) : Bool :=
  if status ≠ "" then r.status == status
  else if !includeResolved then !(r.status == "resolved" || r.status == "dismissed")
  else true

/-- Result set of GET /api/reports before ORDER BY and LIMIT/OFFSET:
filtered report rows inner-joined with their game.  Ordering and paging
permute and slice this list and do not affect membership. -/
def listReports (games : List GameRow) (reports : List ReportRow)
    (status : String) (includeResolved : Bool) : List (ReportRow × GameRow) :=
  (reports.filter (reportListKeep status includeResolved)).filterMap
    (fun r => (games.find? (fun g => g.id == r.game_id)).map (fun g => (r, g)))

/-- WHERE clause of the admin notice listing: an explicit status filter
wins; otherwise only rows in status completed are hidden unless the
includeCompleted flag is set. -/
def noticeListKeep (status : String) (includeCompleted : Bool) (n : NoticeRow) : Bool :=
  if status ≠ "" then n.status == status
  else if !includeCompleted then !(n.status == "completed")
  else true

/-- The LEFT JOIN of the notice listing onto the games table. -/
def noticeGameLookup (games : List GameRow) (n : NoticeRow) : Option GameRow :=
  match n.game_id with
  | some gid => games.find? (fun g => g.id == gid)
  | none => none

/-- Result set of GET /api/notices before ORDER BY and LIMIT/OFFSET:
filtered notice rows left-joined with their game. -/
def listNotices (games : List GameRow) (notices : List NoticeRow)
    (status : String) (includeCompleted : Bool) : List (NoticeRow × Option GameRow) :=
  (notices.filter (noticeListKeep status includeCompleted)).map
    (fun n => (n, noticeGameLookup games n))

/-- Sample DMCA notice sitting in the terminal status rejected. -/
def sampleRejectedNotice : NoticeRow :=
  { id := 1
    game_id := some 1
    tracking_id := some "track-1"
    content_name := "Some Game"
    content_url := some "/game/3f2c8e1a-guid"
    company_name := "Rights Corp"
    full_name := "Jane Roe"
    email := "jane@example.com"
    phone := some "5551234"
    description := some "takedown claim"
    status := "rejected"
    admin_notes := some "internal"
    public_note := none
    created_at := "2026-01-01"
    updated_at := "2026-01-02" }

/-- Claim C1, counterexample: a DMCA notice in the terminal status
rejected is returned by the default admin listing (no status filter,
includeCompleted unset): the default notice filter hides only the
completed status, not rejected. -/
theorem notice_rejected_listed_by_default_cex :
    sampleRejectedNotice.status = "rejected" ∧
      (sampleRejectedNotice, (none : Option GameRow))
        ∈ listNotices [] [sampleRejectedNotice] "" false := by
  refine ⟨rfl, ?_⟩
  decide

/-- Claim C1 (amended): with no status filter and default flags the
report listing excludes exactly the rows in status resolved or
dismissed, while the notice listing excludes only the rows in status
completed — notices in the terminal status rejected are still listed.
Passing any status (terminal ones included) explicitly as the filter
includes every item in that status. -/
theorem list_default_hides_terminal_amended :
    (∀ (games : List GameRow) (reports : List ReportRow) (r : ReportRow) (g : GameRow),
      (r.status = "resolved" ∨ r.status = "dismissed") →
        (r, g) ∉ listReports games reports "" false) ∧
    (∀ (games : List GameRow) (reports : List ReportRow) (r : ReportRow) (gm : GameRow),
      r ∈ reports → r.status ≠ "resolved" → r.status ≠ "dismissed" →
        games.find? (fun g => g.id == r.game_id) = some gm →
        (r, gm) ∈ listReports games reports "" false) ∧
    (∀ (games : List GameRow) (reports : List ReportRow) (r : ReportRow) (gm : GameRow)
      (st : String), r ∈ reports → r.status = st → st ≠ "" →
        games.find? (fun g => g.id == r.game_id) = some gm →
        (r, gm) ∈ listReports games reports st false) ∧
    (∀ (games : List GameRow) (notices : List NoticeRow) (n : NoticeRow) (og : Option GameRow),
      n.status = "completed" → (n, og) ∉ listNotices games notices "" false) ∧
    (∀ (games : List GameRow) (notices : List NoticeRow) (n : NoticeRow),
      n ∈ notices → n.status ≠ "completed" →
        (n, noticeGameLookup games n) ∈ listNotices games notices "" false) ∧
    (∀ (games : List GameRow) (notices : List NoticeRow) (n : NoticeRow) (st : String),
      n ∈ notices → n.status = st → st ≠ "" →
        (n, noticeGameLookup games n) ∈ listNotices games notices st false) := by
  refine ⟨?_, ?_, ?_, ?_, ?_, ?_⟩
  · intro games reports r g hterm hmem
    unfold listReports at hmem
    rw [List.mem_filterMap] at hmem
    obtain ⟨r0, hr0, hmap⟩ := hmem
    rcases Option.map_eq_some'.mp hmap with ⟨g0, _, heq⟩
    have hr0r : r0 = r := congrArg Prod.fst heq
    rw [hr0r] at hr0
    have hkeep := (List.mem_filter.mp hr0).2
    rcases hterm with h | h <;> simp [reportListKeep, h] at hkeep
  · intro games reports r gm hr hs1 hs2 hfind
    unfold listReports
    rw [List.mem_filterMap]
    refine ⟨r, List.mem_filter.mpr ⟨hr, ?_⟩, by rw [hfind]; rfl⟩
    simp [reportListKeep, hs1, hs2]
  · intro games reports r gm st hr hst hne hfind
    unfold listReports
    rw [List.mem_filterMap]
    refine ⟨r, List.mem_filter.mpr ⟨hr, ?_⟩, by rw [hfind]; rfl⟩
    simp [reportListKeep, hne, hst]
  · intro games notices n og hterm hmem
    unfold listNotices at hmem
    rw [List.mem_map] at hmem
    obtain ⟨n0, hn0, heq⟩ := hmem
    have hn0n : n0 = n := congrArg Prod.fst heq
    rw [hn0n] at hn0
    have hkeep := (List.mem_filter.mp hn0).2
    simp [noticeListKeep, hterm] at hkeep
  · intro games notices n hn hne
    unfold listNotices
    rw [List.mem_map]
    refine ⟨n, List.mem_filter.mpr ⟨hn, ?_⟩, rfl⟩
    simp [noticeListKeep, hne]
  · intro games notices n st hn hst hne
    unfold listNotices
    rw [List.mem_map]
    refine ⟨n, List.mem_filter.mpr ⟨hn, ?_⟩, rfl⟩
    simp [noticeListKeep, hne, hst]

/-- Sample game report in the terminal status resolved. -/
def sampleResolvedReport : ReportRow :=
  { id := 1
    game_id := 1
    tracking_id := some "track-2"
    report_type := "broken_link"
    description := some "dead magnet"
    email := some "bob@example.com"
    status := "resolved"
    admin_notes := some "fixed"
    public_note := some "resolved, thanks"
    created_at := "2026-01-01"
    updated_at := "2026-01-02" }

/-- Sample DMCA notice in the terminal status completed. -/
def sampleCompletedNotice : NoticeRow :=
  { sampleRejectedNotice with id := 2, tracking_id := some "track-3", status := "completed" }

/-- Sample game report in the non-terminal status pending. -/
def samplePendingReport : ReportRow :=
  { sampleResolvedReport with id := 2, tracking_id := some "track-4", status := "pending" }

/-- Claim C1, witness: the amended filter semantics at concrete rows. -/
theorem list_default_hides_terminal_amended_witness :
    ((sampleResolvedReport, sampleGame)
        ∉ listReports [sampleGame] [sampleResolvedReport] "" false) ∧
      ((samplePendingReport, sampleGame)
        ∈ listReports [sampleGame] [samplePendingReport] "" false) ∧
      ((sampleResolvedReport, sampleGame)
        ∈ listReports [sampleGame] [sampleResolvedReport] "resolved" false) ∧
      ((sampleCompletedNotice, (none : Option GameRow))
        ∉ listNotices [] [sampleCompletedNotice] "" false) ∧
      ((sampleRejectedNotice, noticeGameLookup [] sampleRejectedNotice)
        ∈ listNotices [] [sampleRejectedNotice] "" false) ∧
      ((sampleRejectedNotice, noticeGameLookup [] sampleRejectedNotice)
        ∈ listNotices [] [sampleRejectedNotice] "rejected" false) := by
  obtain ⟨h1, h1b, h2, h3, h4, h5⟩ := list_default_hides_terminal_amended
  exact ⟨h1 [sampleGame] [sampleResolvedReport] sampleResolvedReport sampleGame (Or.inl rfl),
         h1b [sampleGame] [samplePendingReport] samplePendingReport sampleGame
           (List.mem_singleton.mpr rfl) (by decide) (by decide) (by decide),
         h2 [sampleGame] [sampleResolvedReport] sampleResolvedReport sampleGame "resolved"
           (List.mem_singleton.mpr rfl) rfl (by decide) (by decide),
         h3 [] [sampleCompletedNotice] sampleCompletedNotice (none : Option GameRow) rfl,
         h4 [] [sampleRejectedNotice] sampleRejectedNotice
           (List.mem_singleton.mpr rfl) (by decide),
         h5 [] [sampleRejectedNotice] sampleRejectedNotice "rejected"
           (List.mem_singleton.mpr rfl) rfl (by decide)⟩

/-- Error taxonomy of the handlers under verification: HTTP 400 and 404. -/
inductive ApiErr where
  | badRequest : String → ApiErr
  | notFound : String → ApiErr
  deriving DecidableEq, Repr

/-- Successful submission response: row id and tracking identifier. -/
structure SubmitResp where
  id : Nat
  tracking_id : String
  deriving DecidableEq, Repr

/-- JavaScript truthiness of a numeric body field (zero is falsy). -/
def JsVal.truthyNat : JsVal Nat → Bool
  | .val n => !(n == 0)
  | _ => false

/-- Underlying string of a body field known to be truthy. -/
def JsVal.str : JsVal String → String
  | .val s => s
  | _ => ""

/-- Underlying number of a body field known to be truthy. -/
def JsVal.nat : JsVal Nat → Nat
  | .val n => n
  | _ => 0

/-- ASCII whitespace, the relevant fragment of the regex whitespace
class for the email shapes at hand. -/
def isWsChar (c : Char) : Bool :=
  c == ' ' || c == '\t' || c == '\n' || c == '\r'

/-- Characters admitted by the negated class of the email regex. -/
def okEmailChar (c : Char) : Bool := !(isWsChar c) && !(c == '@')

/-- Existence of a dot strictly inside a character list. -/
def hasInnerDot (cs : List Char) : Bool :=
  (List.range cs.length).any
    (fun i => cs.getD i ' ' == '.' && decide (0 < i) && decide (i + 1 < cs.length))

/-- Splitting of a character list at every occurrence of a separator. -/
def splitAtChar (c : Char) : List Char → List (List Char)
  | [] => [[]]
  | x :: rest =>
    match splitAtChar c rest with
    | [] => [[x]]
    | h :: t => if x == c then [] :: h :: t else (x :: h) :: t

/-- Embedding of the email regex shared by both submit handlers: one or
more characters outside whitespace-or-at, an at sign, the same, a dot,
the same; equivalently exactly one at sign, a nonempty admissible left
part, and an admissible right part with a strictly inner dot. -/
def emailOk (s : String) : Bool :=
  match splitAtChar '@' s.toList with
  | [leftPart, rightPart] =>
    !(leftPart == []) && leftPart.all okEmailChar &&
      rightPart.all okEmailChar && hasInnerDot rightPart
  | _ => false

/-- Body of POST /api/reports. -/
structure ReportSubmitBody where
  game_id : JsVal Nat
  report_type : JsVal String
  description : JsVal String
  email : JsVal String
  deriving DecidableEq, Repr

/-- Whitelisted report types of the submit handler. -/
def validReportTypes : List String := ["broken_link", "wrong_info", "malware", "other"]

/-- Embedding of POST /api/reports: required-field truthiness check,
report-type whitelist, email regex, game existence check answered with
404, then a single INSERT carrying the generated tracking identifier;
the status column takes its schema default pending.  The table
component is returned unchanged on every error path. -/
def submitReport (games : List GameRow) (reports : List ReportRow)
    (b : ReportSubmitBody) (newId : Nat) (tracking : String) (now : String) :
    List ReportRow × Except ApiErr SubmitResp :=
  if !(b.game_id.truthyNat && b.report_type.truthy && b.description.truthy
      && b.email.truthy) then
    (reports, .error (.badRequest "All fields are required"))
  else if !(validReportTypes.contains b.report_type.str) then
    (reports, .error (.badRequest "Invalid report_type"))
  else if !(emailOk b.email.str) then
    (reports, .error (.badRequest "Invalid email format"))
  else
    match games.find? (fun g => g.id == b.game_id.nat) with
    | none => (reports, .error (.notFound "Game not found"))
    | some _ =>
      (reports ++ [{ id := newId, game_id := b.game_id.nat, tracking_id := some tracking,
                     report_type := b.report_type.str, description := some b.description.str,
                     email := some b.email.str, status := "pending", admin_notes := none,
                     public_note := none, created_at := now, updated_at := now }],
       .ok ⟨newId, tracking⟩)

/-- Body of POST /api/notices. -/
structure NoticeSubmitBody where
  game_id : JsVal Nat
  company_name : JsVal String
  full_name : JsVal String
  email : JsVal String
  phone : JsVal String
  description : JsVal String
  deriving DecidableEq, Repr

/-- Embedding of POST /api/notices: required-field truthiness check,
email regex, then the game lookup — whose failure this handler reports
as a 400 bad request, not a 404 — then the INSERT with content fields
copied from the game and the schema-default pending status. -/
def submitNotice (games : List GameRow) (notices : List NoticeRow)
    (b : NoticeSubmitBody) (newId : Nat) (tracking : String) (now : String) :
    List NoticeRow × Except ApiErr SubmitResp :=
  if !(b.game_id.truthyNat && b.company_name.truthy && b.full_name.truthy
      && b.email.truthy && b.phone.truthy && b.description.truthy) then
    (notices, .error (.badRequest "All fields are required"))
  else if !(emailOk b.email.str) then
    (notices, .error (.badRequest "Invalid email format"))
  else
    match games.find? (fun g => g.id == b.game_id.nat) with
    | none => (notices, .error (.badRequest "Invalid game_id: game not found"))
    | some g =>
      (notices ++ [{ id := newId, game_id := some b.game_id.nat, tracking_id := some tracking,
                     content_name := g.title, content_url := some ("/game/" ++ g.slug),
                     company_name := b.company_name.str, full_name := b.full_name.str,
                     email := b.email.str, phone := some b.phone.str,
                     description := some b.description.str, status := "pending",
                     admin_notes := none, public_note := none,
                     created_at := now, updated_at := now }],
       .ok ⟨newId, tracking⟩)

theorem submitReport_shape (games : List GameRow) (reports : List ReportRow)
    (b : ReportSubmitBody) (newId : Nat) (tracking now : String) :
    (∃ e, submitReport games reports b newId tracking now = (reports, Except.error e)) ∨
      (∃ r, submitReport games reports b newId tracking now
        = (reports ++ [r], Except.ok ⟨newId, tracking⟩)) := by
  unfold submitReport
  split
  · exact Or.inl ⟨_, rfl⟩
  · split
    · exact Or.inl ⟨_, rfl⟩
    · split
      · exact Or.inl ⟨_, rfl⟩
      · cases hfind : games.find? (fun g => g.id == b.game_id.nat) with
        | none => exact Or.inl ⟨_, rfl⟩
        | some gm => exact Or.inr ⟨_, rfl⟩

theorem submitNotice_shape (games : List GameRow) (notices : List NoticeRow)
    (b : NoticeSubmitBody) (newId : Nat) (tracking now : String) :
    (∃ e, submitNotice games notices b newId tracking now = (notices, Except.error e)) ∨
      (∃ r, submitNotice games notices b newId tracking now
        = (notices ++ [r], Except.ok ⟨newId, tracking⟩)) := by
  unfold submitNotice
  split
  · exact Or.inl ⟨_, rfl⟩
  · split
    · exact Or.inl ⟨_, rfl⟩
    · cases hfind : games.find? (fun g => g.id == b.game_id.nat) with
      | none => exact Or.inl ⟨_, rfl⟩
      | some gm => exact Or.inr ⟨_, rfl⟩

/-- Sample DMCA submission body with every required field present and a
well-formed email. -/
def sampleNoticeBody : NoticeSubmitBody :=
  { game_id := .val 7
    company_name := .val "Rights Corp"
    full_name := .val "Jane Roe"
    email := .val "jane@example.com"
    phone := .val "5551234"
    description := .val "infringing listing" }

/-- Claim C2, counterexample: a fully valid DMCA notice referencing a
game id absent from the games table is rejected with a 400 bad request
(message Invalid game_id), not the 404 the claim states; no row is
inserted either way. -/
theorem notice_missing_game_bad_request_cex :
    (submitNotice [] [] sampleNoticeBody 1 "track-9" "2026-01-01").2
        = Except.error (ApiErr.badRequest "Invalid game_id: game not found") ∧
      (submitNotice [] [] sampleNoticeBody 1 "track-9" "2026-01-01").1 = [] := by
  refine ⟨?_, ?_⟩ <;> rfl

/-- Claim C2 (amended): a field-valid submission referencing a missing
game fails without inserting a row — with a 404 for reports but a 400
bad request for DMCA notices; when the game exists, exactly one row is
appended, in status pending, and the fresh tracking identifier is
returned.  Every error path leaves the table unchanged. -/
theorem submit_missing_game_amended :
    (∀ (games : List GameRow) (reports : List ReportRow) (b : ReportSubmitBody)
        (newId : Nat) (tracking now : String),
      b.game_id.truthyNat = true → b.report_type.truthy = true →
      b.description.truthy = true → b.email.truthy = true →
      b.report_type.str ∈ validReportTypes →
      emailOk b.email.str = true →
      (games.find? (fun g => g.id == b.game_id.nat) = none →
        submitReport games reports b newId tracking now
          = (reports, Except.error (ApiErr.notFound "Game not found"))) ∧
      (∀ gm, games.find? (fun g => g.id == b.game_id.nat) = some gm →
        ∃ r, submitReport games reports b newId tracking now
            = (reports ++ [r], Except.ok ⟨newId, tracking⟩) ∧
          r.status = "pending" ∧ r.tracking_id = some tracking)) ∧
    (∀ (games : List GameRow) (notices : List NoticeRow) (b : NoticeSubmitBody)
        (newId : Nat) (tracking now : String),
      b.game_id.truthyNat = true → b.company_name.truthy = true →
      b.full_name.truthy = true → b.email.truthy = true →
      b.phone.truthy = true → b.description.truthy = true →
      emailOk b.email.str = true →
      (games.find? (fun g => g.id == b.game_id.nat) = none →
        submitNotice games notices b newId tracking now
          = (notices, Except.error (ApiErr.badRequest "Invalid game_id: game not found"))) ∧
      (∀ gm, games.find? (fun g => g.id == b.game_id.nat) = some gm →
        ∃ r, submitNotice games notices b newId tracking now
            = (notices ++ [r], Except.ok ⟨newId, tracking⟩) ∧
          r.status = "pending" ∧ r.tracking_id = some tracking)) ∧
    (∀ (games : List GameRow) (reports : List ReportRow) (b : ReportSubmitBody)
        (newId : Nat) (tracking now : String) (e : ApiErr),
      (submitReport games reports b newId tracking now).2 = Except.error e →
        (submitReport games reports b newId tracking now).1 = reports) ∧
    (∀ (games : List GameRow) (notices : List NoticeRow) (b : NoticeSubmitBody)
        (newId : Nat) (tracking now : String) (e : ApiErr),
      (submitNotice games notices b newId tracking now).2 = Except.error e →
        (submitNotice games notices b newId tracking now).1 = notices) := by
  refine ⟨?_, ?_, ?_, ?_⟩
  · intro games reports b newId tracking now h1 h2 h3 h4 h5 h6
    constructor
    · intro hfind
      unfold submitReport
      rw [if_neg (by simp [h1, h2, h3, h4]), if_neg (by simp [h5]),
        if_neg (by simp [h6]), hfind]
    · intro gm hfind
      refine ⟨{ id := newId, game_id := b.game_id.nat, tracking_id := some tracking,
                report_type := b.report_type.str, description := some b.description.str,
                email := some b.email.str, status := "pending", admin_notes := none,
                public_note := none, created_at := now, updated_at := now }, ?_, rfl, rfl⟩
      unfold submitReport
      rw [if_neg (by simp [h1, h2, h3, h4]), if_neg (by simp [h5]),
        if_neg (by simp [h6]), hfind]
  · intro games notices b newId tracking now h1 h2 h3 h4 h5 h6 h7
    constructor
    · intro hfind
      unfold submitNotice
      rw [if_neg (by simp [h1, h2, h3, h4, h5, h6]), if_neg (by simp [h7]), hfind]
    · intro gm hfind
      refine ⟨{ id := newId, game_id := some b.game_id.nat, tracking_id := some tracking,
                content_name := gm.title, content_url := some ("/game/" ++ gm.slug),
                company_name := b.company_name.str, full_name := b.full_name.str,
                email := b.email.str, phone := some b.phone.str,
                description := some b.description.str, status := "pending",
                admin_notes := none, public_note := none,
                created_at := now, updated_at := now }, ?_, rfl, rfl⟩
      unfold submitNotice
      rw [if_neg (by simp [h1, h2, h3, h4, h5, h6]), if_neg (by simp [h7]), hfind]
  · intro games reports b newId tracking now e herr
    rcases submitReport_shape games reports b newId tracking now with ⟨e0, h⟩ | ⟨r, h⟩
    · rw [h]
    · rw [h] at herr
      cases herr
  · intro games notices b newId tracking now e herr
    rcases submitNotice_shape games notices b newId tracking now with ⟨e0, h⟩ | ⟨r, h⟩
    · rw [h]
    · rw [h] at herr
      cases herr

/-- Sample report submission body with every field valid. -/
def sampleReportBody : ReportSubmitBody :=
  { game_id := .val 1
    report_type := .val "broken_link"
    description := .val "magnet is dead"
    email := .val "bob@example.com" }

/-- Claim C2, witness: the amended submission behavior at concrete
inputs — a 404 for a report on a missing game, a pending row appended
when the game exists, and a 400 for the notice on a missing game. -/
theorem submit_missing_game_amended_witness :
    (submitReport [] [] sampleReportBody 5 "track-5" "2026-01-03"
        = ([], Except.error (ApiErr.notFound "Game not found"))) ∧
      (∃ r, submitReport [sampleGame] [] sampleReportBody 5 "track-5" "2026-01-03"
          = ([] ++ [r], Except.ok ⟨5, "track-5"⟩) ∧
        r.status = "pending" ∧ r.tracking_id = some "track-5") ∧
      (submitNotice [] [] sampleNoticeBody 1 "track-9" "2026-01-01"
        = ([], Except.error (ApiErr.badRequest "Invalid game_id: game not found"))) := by
  obtain ⟨hrep, hnot, _, _⟩ := submit_missing_game_amended
  have h1 := (hrep [] [] sampleReportBody 5 "track-5" "2026-01-03"
    rfl rfl rfl rfl (by decide) (by decide)).1 rfl
  have h2 := (hrep [sampleGame] [] sampleReportBody 5 "track-5" "2026-01-03"
    rfl rfl rfl rfl (by decide) (by decide)).2 sampleGame (by decide)
  have h3 := (hnot [] [] sampleNoticeBody 1 "track-9" "2026-01-01"
    rfl rfl rfl rfl rfl rfl (by decide)).1 rfl
  exact ⟨h1, h2, h3⟩

/-- Response of the public track endpoints: the reduced view both
handlers select and return (type tag, tracking identifier, status,
public note, timestamps). -/
structure TrackResp where
  type : String
  tracking_id : Option String
  status : String
  public_note : Option String
  submitted_at : String
  updated_at : String
  deriving DecidableEq, Repr

/-- Projection of a report row onto the public track response. -/
def reportTrackView (r : ReportRow) : TrackResp :=
  { type := "report"
    tracking_id := r.tracking_id
    status := r.status
    public_note := r.public_note
    submitted_at := r.created_at
    updated_at := r.updated_at }

/-- Projection of a notice row onto the public track response. -/
def noticeTrackView (n : NoticeRow) : TrackResp :=
  { type := "dmca"
    tracking_id := n.tracking_id
    status := n.status
    public_note := n.public_note
    submitted_at := n.created_at
    updated_at := n.updated_at }

/-- Embedding of GET /api/reports/track/:trackingId: select by tracking
identifier, return the reduced view, 404 when absent (none here). -/
def trackReport (reports : List ReportRow) (tid : String) : Option TrackResp :=
  (reports.find? (fun r => r.tracking_id == some tid)).map reportTrackView

/-- Embedding of GET /api/notices/track/:trackingId. -/
def trackNotice (notices : List NoticeRow) (tid : String) : Option TrackResp :=
  (notices.find? (fun n => n.tracking_id == some tid)).map noticeTrackView

theorem find?_eq_of_unique {α : Type} (p : α → Bool) (l : List α) (a : α)
    (ha : a ∈ l) (hpa : p a = true) (huniq : ∀ x ∈ l, p x = true → x = a) :
    l.find? p = some a := by
  induction l with
  | nil => cases ha
  | cons x rest ih =>
    rcases List.mem_cons.mp ha with rfl | harest
    · rw [List.find?_cons_of_pos _ hpa]
    · cases hx : p x with
      | false => rw [List.find?_cons_of_neg _ (by simp [hx])]
                 exact ih harest (fun y hy hpy => huniq y (List.mem_cons_of_mem _ hy) hpy)
      | true =>
        have hxa := huniq x (List.mem_cons_self _ _) hx
        subst hxa
        rw [List.find?_cons_of_pos _ hx]

/-- Claim C6: under uniqueness of the tracking identifier (the unique
index on the column) the track lookup of a stored row returns exactly
the status and public note of that row, and the response is a function
of tracking identifier, status, public note and timestamps alone — two
rows differing only in admin notes or submitter fields (email, names,
phone, description, type) produce identical responses, so neither admin
notes nor submitter PII can reach the track output. -/
theorem track_returns_status_and_note_only :
    (∀ (reports : List ReportRow) (r : ReportRow) (tid : String),
      r ∈ reports → r.tracking_id = some tid →
      (∀ x ∈ reports, x.tracking_id = some tid → x = r) →
      trackReport reports tid = some (reportTrackView r)) ∧
    (∀ r : ReportRow, (reportTrackView r).status = r.status ∧
      (reportTrackView r).public_note = r.public_note) ∧
    (∀ r1 r2 : ReportRow, r1.tracking_id = r2.tracking_id → r1.status = r2.status →
      r1.public_note = r2.public_note → r1.created_at = r2.created_at →
      r1.updated_at = r2.updated_at → reportTrackView r1 = reportTrackView r2) ∧
    (∀ (notices : List NoticeRow) (n : NoticeRow) (tid : String),
      n ∈ notices → n.tracking_id = some tid →
      (∀ x ∈ notices, x.tracking_id = some tid → x = n) →
      trackNotice notices tid = some (noticeTrackView n)) ∧
    (∀ n : NoticeRow, (noticeTrackView n).status = n.status ∧
      (noticeTrackView n).public_note = n.public_note) ∧
    (∀ n1 n2 : NoticeRow, n1.tracking_id = n2.tracking_id → n1.status = n2.status →
      n1.public_note = n2.public_note → n1.created_at = n2.created_at →
      n1.updated_at = n2.updated_at → noticeTrackView n1 = noticeTrackView n2) := by
  refine ⟨?_, fun r => ⟨rfl, rfl⟩, ?_, ?_, fun n => ⟨rfl, rfl⟩, ?_⟩
  · intro reports r tid hr htid huniq
    unfold trackReport
    rw [find?_eq_of_unique _ reports r hr (by simp [htid])
      (fun x hx hpx => huniq x hx (by simpa using hpx))]
    rfl
  · intro r1 r2 h1 h2 h3 h4 h5
    unfold reportTrackView
    rw [h1, h2, h3, h4, h5]
  · intro notices n tid hn htid huniq
    unfold trackNotice
    rw [find?_eq_of_unique _ notices n hn (by simp [htid])
      (fun x hx hpx => huniq x hx (by simpa using hpx))]
    rfl
  · intro n1 n2 h1 h2 h3 h4 h5
    unfold noticeTrackView
    rw [h1, h2, h3, h4, h5]

/-- Report row agreeing with sampleResolvedReport on the public view
but with different admin notes and submitter fields. -/
def sampleResolvedReportScrubbed : ReportRow :=
  { sampleResolvedReport with
    admin_notes := none
    email := some "someone-else@example.org"
    description := none
    report_type := "other"
    game_id := 42 }

/-- Notice row agreeing with sampleRejectedNotice on the public view
but with different admin notes and submitter fields. -/
def sampleRejectedNoticeScrubbed : NoticeRow :=
  { sampleRejectedNotice with
    admin_notes := none
    email := "someone-else@example.org"
    full_name := "John Doe"
    company_name := "Other Corp"
    phone := none
    description := none }

/-- Claim C6, witness: concrete lookups and the insensitivity of the
response to admin notes and submitter fields. -/
theorem track_returns_status_and_note_only_witness :
    trackReport [sampleResolvedReport] "track-2" = some (reportTrackView sampleResolvedReport) ∧
      (reportTrackView sampleResolvedReport).status = sampleResolvedReport.status ∧
      (reportTrackView sampleResolvedReport).public_note = sampleResolvedReport.public_note ∧
      reportTrackView sampleResolvedReport = reportTrackView sampleResolvedReportScrubbed ∧
      trackNotice [sampleRejectedNotice] "track-1" = some (noticeTrackView sampleRejectedNotice) ∧
      noticeTrackView sampleRejectedNotice = noticeTrackView sampleRejectedNoticeScrubbed := by
  obtain ⟨hr1, hr2, hr3, hn1, hn2, hn3⟩ := track_returns_status_and_note_only
  exact ⟨hr1 [sampleResolvedReport] sampleResolvedReport "track-2"
           (List.mem_singleton.mpr rfl) rfl (by decide),
         (hr2 sampleResolvedReport).1, (hr2 sampleResolvedReport).2,
         hr3 sampleResolvedReport sampleResolvedReportScrubbed rfl rfl rfl rfl rfl,
         hn1 [sampleRejectedNotice] sampleRejectedNotice "track-1"
           (List.mem_singleton.mpr rfl) rfl (by decide),
         hn3 sampleRejectedNotice sampleRejectedNoticeScrubbed rfl rfl rfl rfl rfl⟩

/-- Body of the admin update of a report or notice. -/
structure ModUpdateBody where
  status : JsVal String
  admin_notes : JsVal String
  public_note : JsVal String
  deriving DecidableEq, Repr

/-- Embedding of the bound parameter (status || null). -/
def bindOrNull (v : JsVal String) : Option String :=
  match v with
  | .val s => if s = "" then none else some s
  | _ => none

/-- Embedding of the bound parameter (x !== undefined ? x : null). -/
def bindUndefToNull (v : JsVal String) : Option String :=
  match v with
  | .val s => some s
  | _ => none

/-- SQL COALESCE of a bound parameter with the stored column. -/
def coalesce (p old : Option String) : Option String :=
  match p with
  | some s => some s
  | none => old

/-- Statuses accepted by the report update handler. -/
def validReportStatuses : List String := ["pending", "reviewed", "resolved", "dismissed"]

/-- Statuses accepted by the notice update handler. -/
def validNoticeStatuses : List String :=
  ["pending", "reviewing", "approved", "rejected", "completed"]

/-- Embedding of PUT /api/reports/:id on a located row: status
whitelist check guarded by truthiness, then the COALESCE update. -/
def updateReportAdmin (r : ReportRow) (b : ModUpdateBody) (now : String) :
    Except ApiErr ReportRow :=
  if b.status.truthy && !(validReportStatuses.contains b.status.str) then
    .error (.badRequest "Invalid status")
  else
    .ok { r with
      status := (bindOrNull b.status).getD r.status
      admin_notes := coalesce (bindUndefToNull b.admin_notes) r.admin_notes
      public_note := coalesce (bindUndefToNull b.public_note) r.public_note
      updated_at := now }

/-- Embedding of PUT /api/notices/:id on a located row. -/
def updateNoticeAdmin (n : NoticeRow) (b : ModUpdateBody) (now : String) :
    Except ApiErr NoticeRow :=
  if b.status.truthy && !(validNoticeStatuses.contains b.status.str) then
    .error (.badRequest "Invalid status")
  else
    .ok { n with
      status := (bindOrNull b.status).getD n.status
      admin_notes := coalesce (bindUndefToNull b.admin_notes) n.admin_notes
      public_note := coalesce (bindUndefToNull b.public_note) n.public_note
      updated_at := now }

/-- Claim C10: in the admin update of a report or notice, an explicit
null for status, admin notes or public note (and an empty string for
status) is indistinguishable from omitting the field — the COALESCE
keeps the stored value — and consequently a field that is non-null can
never be set back to null through this operation. -/
theorem mod_update_null_keeps_value :
    (∀ (r : ReportRow) (now : String) (a q : JsVal String),
      updateReportAdmin r ⟨.null, a, q⟩ now = updateReportAdmin r ⟨.undef, a, q⟩ now ∧
      updateReportAdmin r ⟨.val "", a, q⟩ now = updateReportAdmin r ⟨.undef, a, q⟩ now) ∧
    (∀ (r : ReportRow) (now : String) (s q : JsVal String),
      updateReportAdmin r ⟨s, .null, q⟩ now = updateReportAdmin r ⟨s, .undef, q⟩ now) ∧
    (∀ (r : ReportRow) (now : String) (s a : JsVal String),
      updateReportAdmin r ⟨s, a, .null⟩ now = updateReportAdmin r ⟨s, a, .undef⟩ now) ∧
    (∀ (r : ReportRow) (b : ModUpdateBody) (now : String) (r2 : ReportRow),
      updateReportAdmin r b now = .ok r2 →
      (r2.admin_notes = none → r.admin_notes = none) ∧
      (r2.public_note = none → r.public_note = none)) ∧
    (∀ (n : NoticeRow) (now : String) (a q : JsVal String),
      updateNoticeAdmin n ⟨.null, a, q⟩ now = updateNoticeAdmin n ⟨.undef, a, q⟩ now ∧
      updateNoticeAdmin n ⟨.val "", a, q⟩ now = updateNoticeAdmin n ⟨.undef, a, q⟩ now) ∧
    (∀ (n : NoticeRow) (now : String) (s q : JsVal String),
      updateNoticeAdmin n ⟨s, .null, q⟩ now = updateNoticeAdmin n ⟨s, .undef, q⟩ now) ∧
    (∀ (n : NoticeRow) (now : String) (s a : JsVal String),
      updateNoticeAdmin n ⟨s, a, .null⟩ now = updateNoticeAdmin n ⟨s, a, .undef⟩ now) ∧
    (∀ (n : NoticeRow) (b : ModUpdateBody) (now : String) (n2 : NoticeRow),
      updateNoticeAdmin n b now = .ok n2 →
      (n2.admin_notes = none → n.admin_notes = none) ∧
      (n2.public_note = none → n.public_note = none)) := by
  refine ⟨fun r now a q => ⟨rfl, by simp [updateReportAdmin, JsVal.truthy, bindOrNull]⟩,
          fun r now s q => rfl, fun r now s a => rfl, ?_,
          fun n now a q => ⟨rfl, by simp [updateNoticeAdmin, JsVal.truthy, bindOrNull]⟩,
          fun n now s q => rfl, fun n now s a => rfl, ?_⟩
  · intro r b now r2 h
    unfold updateReportAdmin at h
    split at h
    · cases h
    · injection h with hpayload
      constructor
      · intro hnone
        rw [← hpayload] at hnone
        simp only [] at hnone
        cases hb : bindUndefToNull b.admin_notes with
        | none => rw [hb] at hnone; simpa [coalesce] using hnone
        | some s => rw [hb] at hnone; simp [coalesce] at hnone
      · intro hnone
        rw [← hpayload] at hnone
        simp only [] at hnone
        cases hb : bindUndefToNull b.public_note with
        | none => rw [hb] at hnone; simpa [coalesce] using hnone
        | some s => rw [hb] at hnone; simp [coalesce] at hnone
  · intro n b now n2 h
    unfold updateNoticeAdmin at h
    split at h
    · cases h
    · injection h with hpayload
      constructor
      · intro hnone
        rw [← hpayload] at hnone
        simp only [] at hnone
        cases hb : bindUndefToNull b.admin_notes with
        | none => rw [hb] at hnone; simpa [coalesce] using hnone
        | some s => rw [hb] at hnone; simp [coalesce] at hnone
      · intro hnone
        rw [← hpayload] at hnone
        simp only [] at hnone
        cases hb : bindUndefToNull b.public_note with
        | none => rw [hb] at hnone; simpa [coalesce] using hnone
        | some s => rw [hb] at hnone; simp [coalesce] at hnone

/-- Report row with both note fields still null. -/
def sampleBlankReport : ReportRow :=
  { sampleResolvedReport with admin_notes := none, public_note := none }

/-- Notice row with both note fields still null. -/
def sampleBlankNotice : NoticeRow :=
  { sampleRejectedNotice with admin_notes := none, public_note := none }

/-- Claim C10, witness: concrete null-vs-omitted updates coincide, and
the never-back-to-null consequence instantiated on concrete rows. -/
theorem mod_update_null_keeps_value_witness :
    (updateReportAdmin sampleResolvedReport ⟨.null, .null, .null⟩ "2026-03-03"
        = updateReportAdmin sampleResolvedReport ⟨.undef, .null, .null⟩ "2026-03-03") ∧
      (updateReportAdmin sampleResolvedReport ⟨.val "", .undef, .undef⟩ "2026-03-03"
        = updateReportAdmin sampleResolvedReport ⟨.undef, .undef, .undef⟩ "2026-03-03") ∧
      (updateReportAdmin sampleResolvedReport ⟨.undef, .null, .undef⟩ "2026-03-03"
        = updateReportAdmin sampleResolvedReport ⟨.undef, .undef, .undef⟩ "2026-03-03") ∧
      (updateReportAdmin sampleResolvedReport ⟨.undef, .undef, .null⟩ "2026-03-03"
        = updateReportAdmin sampleResolvedReport ⟨.undef, .undef, .undef⟩ "2026-03-03") ∧
      sampleBlankReport.admin_notes = none ∧
      (updateNoticeAdmin sampleRejectedNotice ⟨.null, .null, .null⟩ "2026-03-03"
        = updateNoticeAdmin sampleRejectedNotice ⟨.undef, .null, .null⟩ "2026-03-03") ∧
      sampleBlankNotice.admin_notes = none := by
  obtain ⟨hr1, hr2, hr3, hr4, hn1, hn2, hn3, hn4⟩ := mod_update_null_keeps_value
  refine ⟨(hr1 sampleResolvedReport "2026-03-03" .null .null).1,
          (hr1 sampleResolvedReport "2026-03-03" .undef .undef).2,
          hr2 sampleResolvedReport "2026-03-03" .undef .undef,
          hr3 sampleResolvedReport "2026-03-03" .undef .undef,
          (hr4 sampleBlankReport ⟨.undef, .null, .null⟩ "2026-03-03"
            { sampleBlankReport with updated_at := "2026-03-03" } rfl).1 rfl,
          (hn1 sampleRejectedNotice "2026-03-03" .null .null).1,
          (hn4 sampleBlankNotice ⟨.undef, .null, .undef⟩ "2026-03-03"
            { sampleBlankNotice with updated_at := "2026-03-03" } rfl).1 rfl⟩

/-- Row of the game_ratings table. -/
structure RatingRow where
  id : Nat
  game_id : Nat
  rating : Nat
  deriving DecidableEq, Repr

/-- Rating aggregate returned by the stats helper; the distribution is
the fixed-key map over the five star values (field dk is key k). -/
structure RatingStats where
  average : ℚ
  count : Nat
  d1 : Nat
  d2 : Nat
  d3 : Nat
  d4 : Nat
  d5 : Nat
  deriving DecidableEq, Repr

/-- Rounding as in Math.round: half rounds toward positive infinity. -/
def jsRound (q : ℚ) : ℤ := ⌊q + 1/2⌋

/-- Ratings of one game, as selected by both aggregate queries. -/
def gameRatings (rows : List RatingRow) (gameId : Nat) : List Nat :=
  (rows.filter (fun r => r.game_id == gameId)).map (fun r => r.rating)

/-- Embedding of getGameRatingStats: SQL AVG and COUNT over the raw
rows, the average put through the truthiness guard (NULL average for an
empty set, and a zero average, are both falsy and yield 0) and rounded
to one decimal; the distribution starts at zero for all five keys and
takes the per-star GROUP BY counts. -/
def getGameRatingStats (rows : List RatingRow) (gameId : Nat) : RatingStats :=
  let rs := gameRatings rows gameId
  { average :=
      if rs.length = 0 then 0
      else if (rs.sum : ℚ) / rs.length = 0 then 0
      else (jsRound ((rs.sum : ℚ) / rs.length * 10) : ℚ) / 10
    count := rs.length
    d1 := rs.count 1
    d2 := rs.count 2
    d3 := rs.count 3
    d4 := rs.count 4
    d5 := rs.count 5 }

theorem length_le_sum_of_one_le (l : List Nat) (h : ∀ x ∈ l, 1 ≤ x) :
    l.length ≤ l.sum := by
  induction l with
  | nil => simp
  | cons x rest ih =>
    rw [List.length_cons, List.sum_cons]
    have hx := h x (List.mem_cons_self _ _)
    have hrest := ih (fun y hy => h y (List.mem_cons_of_mem _ hy))
    omega

/-- Claim C7: for rating rows in the valid range the aggregate returns
the mean rounded to one decimal (0 with no rows), the row count, and
the per-star distribution with zeros for absent stars. -/
theorem rating_stats_correct (rows : List RatingRow) (gameId : Nat)
    (hvalid : ∀ r ∈ rows, 1 ≤ r.rating ∧ r.rating ≤ 5) :
    (getGameRatingStats rows gameId).count = (gameRatings rows gameId).length ∧
      (gameRatings rows gameId = [] → (getGameRatingStats rows gameId).average = 0) ∧
      (gameRatings rows gameId ≠ [] →
        (getGameRatingStats rows gameId).average
          = (jsRound (((gameRatings rows gameId).sum : ℚ)
              / (gameRatings rows gameId).length * 10) : ℚ) / 10) ∧
      (getGameRatingStats rows gameId).d1 = (gameRatings rows gameId).count 1 ∧
      (getGameRatingStats rows gameId).d2 = (gameRatings rows gameId).count 2 ∧
      (getGameRatingStats rows gameId).d3 = (gameRatings rows gameId).count 3 ∧
      (getGameRatingStats rows gameId).d4 = (gameRatings rows gameId).count 4 ∧
      (getGameRatingStats rows gameId).d5 = (gameRatings rows gameId).count 5 := by
  refine ⟨rfl, ?_, ?_, rfl, rfl, rfl, rfl, rfl⟩
  · intro hempty
    unfold getGameRatingStats
    simp [hempty]
  · intro hne
    have hone : ∀ x ∈ gameRatings rows gameId, 1 ≤ x := by
      intro x hx
      unfold gameRatings at hx
      rw [List.mem_map] at hx
      obtain ⟨r, hr, rfl⟩ := hx
      exact (hvalid r (List.mem_filter.mp hr).1).1
    have hlen : 0 < (gameRatings rows gameId).length := List.length_pos.mpr hne
    have hsum : 0 < (gameRatings rows gameId).sum :=
      lt_of_lt_of_le hlen (length_le_sum_of_one_le _ hone)
    have hdiv : ((gameRatings rows gameId).sum : ℚ) / (gameRatings rows gameId).length ≠ 0 := by
      apply div_ne_zero
      · exact_mod_cast Nat.pos_iff_ne_zero.mp hsum
      · exact_mod_cast Nat.pos_iff_ne_zero.mp hlen
    unfold getGameRatingStats
    simp only [Nat.pos_iff_ne_zero.mp hlen, if_false, hdiv, ite_false]

/-- Ratings 5, 5, 5 and 1 on game 1. -/
def sampleRatings : List RatingRow :=
  [⟨1, 1, 5⟩, ⟨2, 1, 5⟩, ⟨3, 1, 5⟩, ⟨4, 1, 1⟩]

/-- Claim C7, witness: the aggregate of ratings 5,5,5,1 is average 4.0,
count 4, distribution one 1-star, three 5-star, zero elsewhere. -/
theorem rating_stats_correct_witness :
    (getGameRatingStats sampleRatings 1).average = 4 ∧
      (getGameRatingStats sampleRatings 1).count = 4 ∧
      (getGameRatingStats sampleRatings 1).d1 = 1 ∧
      (getGameRatingStats sampleRatings 1).d2 = 0 ∧
      (getGameRatingStats sampleRatings 1).d3 = 0 ∧
      (getGameRatingStats sampleRatings 1).d4 = 0 ∧
      (getGameRatingStats sampleRatings 1).d5 = 3 := by
  obtain ⟨hc, _, havg, h1, h2, h3, h4, h5⟩ :=
    rating_stats_correct sampleRatings 1 (by decide)
  have hgr : gameRatings sampleRatings 1 = [5, 5, 5, 1] := by decide
  refine ⟨?_, ?_, ?_, ?_, ?_, ?_, ?_⟩
  · rw [havg (by decide), hgr]
    norm_num [jsRound]
  · rw [hc, hgr]; decide
  · rw [h1, hgr]; decide
  · rw [h2, hgr]; decide
  · rw [h3, hgr]; decide
  · rw [h4, hgr]; decide
  · rw [h5, hgr]; decide

/-- Row of the game_screenshots table. -/
structure ScreenshotRow where
  id : Nat
  game_id : Nat
  image_path : String
  sort_order : Nat
  deriving DecidableEq, Repr

/-- The screenshots table with the next autoincrement id. -/
structure ScreenshotTable where
  rows : List ScreenshotRow
  nextId : Nat
  deriving DecidableEq, Repr

/-- Comparison by (sort_order, id): the ORDER BY of the read query. -/
def screenshotKeyLe (a b : ScreenshotRow) : Bool :=
  decide (a.sort_order < b.sort_order) ||
    (a.sort_order == b.sort_order && decide (a.id ≤ b.id))

/-- Insertion into a list already sorted by the key. -/
def insertByKey (x : ScreenshotRow) : List ScreenshotRow → List ScreenshotRow
  | [] => [x]
  | y :: t => if screenshotKeyLe x y then x :: y :: t else y :: insertByKey x t

/-- Sorting by (sort_order, id). -/
def sortByKey : List ScreenshotRow → List ScreenshotRow
  | [] => []
  | x :: t => insertByKey x (sortByKey t)

/-- Embedding of getGameScreenshots: image paths of the rows of the
game, ordered by sort_order then id. -/
def getGameScreenshots (t : ScreenshotTable) (gameId : Nat) : List String :=
  (sortByKey (t.rows.filter (fun s => s.game_id == gameId))).map (fun s => s.image_path)

/-- The INSERT loop of updateGameScreenshots: one row per path tagged
with its loop position as sort order, ids assigned consecutively. -/
def buildScreenshotRows (gameId baseId : Nat) : Nat → List String → List ScreenshotRow
  | _, [] => []
  | i, p :: rest =>
    ⟨baseId + i, gameId, p, i⟩ :: buildScreenshotRows gameId baseId (i + 1) rest

/-- Embedding of updateGameScreenshots: issue a file deletion for each
existing row of the game whose path is absent from the new list (the
second component collects the paths passed to deleteImageFile), delete
all rows of the game, then insert one row per new path in order. -/
def updateGameScreenshots (t : ScreenshotTable) (gameId : Nat) (paths : List String) :
    ScreenshotTable × List String :=
  let existing := t.rows.filter (fun s => s.game_id == gameId)
  let deleted := (existing.filter (fun s => !(paths.contains s.image_path))).map
    (fun s => s.image_path)
  (⟨t.rows.filter (fun s => !(s.game_id == gameId))
      ++ buildScreenshotRows gameId t.nextId 0 paths,
    t.nextId + paths.length⟩, deleted)

theorem buildScreenshotRows_filter_self (gameId baseId : Nat) (paths : List String) (i : Nat) :
    (buildScreenshotRows gameId baseId i paths).filter (fun s => s.game_id == gameId)
      = buildScreenshotRows gameId baseId i paths := by
  induction paths generalizing i with
  | nil => rfl
  | cons p rest ih =>
    rw [buildScreenshotRows, List.filter_cons, if_pos (by simp), ih]

theorem buildScreenshotRows_map_path (gameId baseId : Nat) (paths : List String) (i : Nat) :
    (buildScreenshotRows gameId baseId i paths).map (fun s => s.image_path) = paths := by
  induction paths generalizing i with
  | nil => rfl
  | cons p rest ih =>
    rw [buildScreenshotRows, List.map_cons, ih]

theorem buildScreenshotRows_chain (gameId baseId : Nat) (paths : List String) (i : Nat) :
    List.Chain' (fun a b => screenshotKeyLe a b = true)
      (buildScreenshotRows gameId baseId i paths) := by
  induction paths generalizing i with
  | nil => exact List.chain'_nil
  | cons p rest ih =>
    cases rest with
    | nil => exact List.chain'_singleton _
    | cons q rest2 =>
      rw [buildScreenshotRows, buildScreenshotRows]
      refine List.Chain'.cons ?_ ?_
      · simp [screenshotKeyLe]
      · rw [← buildScreenshotRows]
        exact ih (i + 1)

theorem sortByKey_eq_of_chain (l : List ScreenshotRow)
    (h : List.Chain' (fun a b => screenshotKeyLe a b = true) l) : sortByKey l = l := by
  induction l with
  | nil => rfl
  | cons x t ih =>
    rw [sortByKey, ih h.tail]
    cases t with
    | nil => rfl
    | cons y t2 =>
      have hxy : screenshotKeyLe x y = true := List.chain'_cons.mp h |>.1
      rw [insertByKey, if_pos hxy]

theorem filter_not_game_then_game (l : List ScreenshotRow) (gameId : Nat) :
    (l.filter (fun s => !(s.game_id == gameId))).filter (fun s => s.game_id == gameId)
      = [] := by
  rw [List.filter_eq_nil_iff]
  intro s hs
  have := (List.mem_filter.mp hs).2
  simp at this
  simp [this]

/-- Claim C8: screenshot reconciliation issues a file deletion for
exactly the existing paths of the game that are absent from the desired
list, replaces the rows of the game by one row per desired path tagged
with its position as sort order, leaves other games untouched, and the
subsequent ordered read returns exactly the desired list in order. -/
theorem screenshot_reconciliation (t : ScreenshotTable) (gameId : Nat) (paths : List String) :
    (∀ p : String, p ∈ (updateGameScreenshots t gameId paths).2 ↔
      ((∃ s ∈ t.rows, s.game_id = gameId ∧ s.image_path = p) ∧ p ∉ paths)) ∧
      ((updateGameScreenshots t gameId paths).1.rows.filter (fun s => s.game_id == gameId)
        = buildScreenshotRows gameId t.nextId 0 paths) ∧
      getGameScreenshots (updateGameScreenshots t gameId paths).1 gameId = paths ∧
      (∀ s ∈ t.rows, s.game_id ≠ gameId →
        s ∈ (updateGameScreenshots t gameId paths).1.rows) := by
  have hfilter : (updateGameScreenshots t gameId paths).1.rows.filter
      (fun s => s.game_id == gameId) = buildScreenshotRows gameId t.nextId 0 paths := by
    unfold updateGameScreenshots
    rw [List.filter_append, filter_not_game_then_game, List.nil_append,
      buildScreenshotRows_filter_self]
  refine ⟨?_, hfilter, ?_, ?_⟩
  · intro p
    unfold updateGameScreenshots
    simp only [List.mem_map, List.mem_filter]
    constructor
    · rintro ⟨s, ⟨⟨hs, hgid⟩, hnc⟩, rfl⟩
      refine ⟨⟨s, hs, by simpa using hgid, rfl⟩, ?_⟩
      simpa using hnc
    · rintro ⟨⟨s, hs, hgid, rfl⟩, hnp⟩
      exact ⟨s, ⟨⟨hs, by simpa using hgid⟩, by simpa using hnp⟩, rfl⟩
  · unfold getGameScreenshots
    rw [hfilter, sortByKey_eq_of_chain _ (buildScreenshotRows_chain gameId t.nextId paths 0),
      buildScreenshotRows_map_path]
  · intro s hs hne
    unfold updateGameScreenshots
    exact List.mem_append.mpr (Or.inl (List.mem_filter.mpr ⟨hs, by simpa using hne⟩))

/-- Screenshots table: game 1 holds a.png and b.png, game 2 holds z.png. -/
def sampleShots : ScreenshotTable :=
  ⟨[⟨1, 1, "/uploads/a.png", 0⟩, ⟨2, 1, "/uploads/b.png", 1⟩, ⟨3, 2, "/uploads/z.png", 0⟩], 4⟩

/-- Desired list for game 1: c.png then a.png. -/
def sampleNewPaths : List String := ["/uploads/c.png", "/uploads/a.png"]

/-- Claim C8, witness: reconciling game 1 to (c.png, a.png) deletes the
file of b.png, does not delete a.png, reads back the new list in order,
and keeps the unrelated row of game 2. -/
theorem screenshot_reconciliation_witness :
    ("/uploads/b.png" ∈ (updateGameScreenshots sampleShots 1 sampleNewPaths).2) ∧
      ("/uploads/a.png" ∉ (updateGameScreenshots sampleShots 1 sampleNewPaths).2) ∧
      getGameScreenshots (updateGameScreenshots sampleShots 1 sampleNewPaths).1 1
        = sampleNewPaths ∧
      (⟨3, 2, "/uploads/z.png", 0⟩ : ScreenshotRow)
        ∈ (updateGameScreenshots sampleShots 1 sampleNewPaths).1.rows := by
  obtain ⟨hdel, _, hread, hframe⟩ := screenshot_reconciliation sampleShots 1 sampleNewPaths
  refine ⟨?_, ?_, hread, ?_⟩
  · exact (hdel "/uploads/b.png").mpr
      ⟨⟨⟨2, 1, "/uploads/b.png", 1⟩, by decide, rfl, rfl⟩, by decide⟩
  · intro hmem
    have := ((hdel "/uploads/a.png").mp hmem).2
    exact this (by decide)
  · exact hframe ⟨3, 2, "/uploads/z.png", 0⟩ (by decide) (by decide)

/-- Row of the analytics table; the timestamp is in seconds since the
epoch, matching the second-granular SQL datetime arithmetic. -/
structure AnalyticsEvent where
  id : Nat
  game_id : Nat
  event_type : String
  t : Nat
  deriving DecidableEq, Repr

/-- Calendar date of a timestamp, as a day number (UTC, as both the SQL
DATE() and the ISO date string extraction use UTC). -/
def dayOf (ts : Nat) : Nat := ts / 86400

/-- Entry of the daily time series. -/
structure DayStat where
  date : Nat
  views : Nat
  downloads : Nat
  deriving DecidableEq, Repr

/-- Events passing the WHERE clause of the daily query: created within
the trailing 30 days of wall time. -/
def windowEvents (events : List AnalyticsEvent) (now : Nat) : List AnalyticsEvent :=
  events.filter (fun e => decide (now - 30 * 86400 ≤ e.t))

/-- Embedding of the grouped daily SQL query: windowed events grouped
by calendar date with per-type counts.  (SQL orders the groups by date
ascending; the zero-fill below looks groups up by date, so group order
is irrelevant to its output.) -/
def dailyRaw (events : List AnalyticsEvent) (now : Nat) : List DayStat :=
  ((windowEvents events now).map (fun e => dayOf e.t)).dedup.map (fun d =>
    { date := d
      views := ((windowEvents events now).filter
        (fun e => dayOf e.t == d && e.event_type == "view")).length
      downloads := ((windowEvents events now).filter
        (fun e => dayOf e.t == d && e.event_type == "download")).length })

/-- Embedding of the zero-fill loop of the dashboard handler: thirty
entries for the dates (today - 29) to today in ascending order, each
carrying the grouped counts when its date has a group and zeros
otherwise. -/
def filledDailyStats (events : List AnalyticsEvent) (now : Nat) : List DayStat :=
  (List.range 30).map (fun j =>
    match (dailyRaw events now).find? (fun r => r.date == dayOf now - (29 - j)) with
    | some r => { date := dayOf now - (29 - j), views := r.views, downloads := r.downloads }
    | none => { date := dayOf now - (29 - j), views := 0, downloads := 0 })

theorem event_in_window (now : Nat) (e : AnalyticsEvent) (d : Nat)
    (hnow : 30 * 86400 ≤ now) (hd : dayOf now - 29 ≤ d) (hday : dayOf e.t = d) :
    now - 30 * 86400 ≤ e.t := by
  have h1 := Nat.div_add_mod now 86400
  have h2 := Nat.mod_lt now (show 0 < 86400 by norm_num)
  have h3 := Nat.div_add_mod e.t 86400
  unfold dayOf at hd hday
  omega

theorem filter_filter_of_imp {α : Type} (P Q : α → Bool) (l : List α)
    (h : ∀ e ∈ l, Q e = true → P e = true) :
    (l.filter P).filter Q = l.filter Q := by
  induction l with
  | nil => rfl
  | cons x rest ih =>
    have hrest := ih (fun e he hq => h e (List.mem_cons_of_mem _ he) hq)
    simp only [List.filter_cons]
    by_cases hP : P x = true
    · by_cases hQ : Q x = true
      · simp [hP, hQ, hrest]
      · simp [hP, hQ, hrest]
    · have hQ : ¬(Q x = true) := fun hq => hP (h x (List.mem_cons_self _ _) hq)
      simp [hP, hQ, hrest]

theorem find?_map_eq {f : Nat → DayStat} (hf : ∀ x, (f x).date = x)
    (l : List Nat) (d : Nat) :
    (l.map f).find? (fun r => r.date == d) = if d ∈ l then some (f d) else none := by
  induction l with
  | nil => simp
  | cons x rest ih =>
    rw [List.map_cons]
    by_cases hx : x = d
    · subst hx
      rw [List.find?_cons_of_pos _ (by simp [hf]), if_pos (List.mem_cons_self _ _)]
    · rw [List.find?_cons_of_neg _ (by simp [hf, hx]), ih]
      by_cases hd : d ∈ rest
      · rw [if_pos hd, if_pos (List.mem_cons_of_mem _ hd)]
      · rw [if_neg hd, if_neg ?_]
        intro hmem
        rcases List.mem_cons.mp hmem with h1 | h1
        · exact hx h1.symm
        · exact hd h1

theorem dailyRaw_find? (events : List AnalyticsEvent) (now d : Nat) :
    (dailyRaw events now).find? (fun r => r.date == d)
      = if d ∈ ((windowEvents events now).map (fun e => dayOf e.t)).dedup then
          some { date := d
                 views := ((windowEvents events now).filter
                   (fun e => dayOf e.t == d && e.event_type == "view")).length
                 downloads := ((windowEvents events now).filter
                   (fun e => dayOf e.t == d && e.event_type == "download")).length }
        else none := by
  unfold dailyRaw
  exact find?_map_eq (fun x => rfl) _ d

/-- Claim C9: with the wall clock at least 30 days past the epoch, the
daily series has exactly 30 entries, the entry at position j carries
the calendar date (today - 29 + j) — hence one entry per trailing date
in strictly ascending order — and each entry counts exactly the view
and download events of its date over the whole table, with zeros for a
date with no events. -/
theorem daily_stats_thirty_days (events : List AnalyticsEvent) (now : Nat)
    (hnow : 30 * 86400 ≤ now) :
    (filledDailyStats events now).length = 30 ∧
      ∀ j : Nat, j < 30 →
        (filledDailyStats events now).getD j ⟨0, 0, 0⟩
          = { date := dayOf now - 29 + j
              views := (events.filter (fun e => dayOf e.t == dayOf now - 29 + j
                           && e.event_type == "view")).length
              downloads := (events.filter (fun e => dayOf e.t == dayOf now - 29 + j
                           && e.event_type == "download")).length } := by
  have hlen30 : (filledDailyStats events now).length = 30 := by
    unfold filledDailyStats
    rw [List.length_map, List.length_range]
  have htoday : 30 ≤ dayOf now := by
    unfold dayOf
    have h := Nat.div_le_div_right (c := 86400) hnow
    simpa using h
  refine ⟨hlen30, ?_⟩
  intro j hj
  have hdeq : dayOf now - (29 - j) = dayOf now - 29 + j := by omega
  rw [List.getD_eq_getElem _ _ (by rw [hlen30]; exact hj)]
  unfold filledDailyStats
  simp only [List.getElem_map, List.getElem_range]
  rw [hdeq, dailyRaw_find?]
  have hdge : dayOf now - 29 ≤ dayOf now - 29 + j := Nat.le_add_right _ _
  have hviews : (windowEvents events now).filter
      (fun e => dayOf e.t == dayOf now - 29 + j && e.event_type == "view")
      = events.filter (fun e => dayOf e.t == dayOf now - 29 + j && e.event_type == "view") := by
    unfold windowEvents
    apply filter_filter_of_imp
    intro e he hq
    rw [Bool.and_eq_true, beq_iff_eq] at hq
    exact decide_eq_true (event_in_window now e _ hnow hdge hq.1)
  have hdls : (windowEvents events now).filter
      (fun e => dayOf e.t == dayOf now - 29 + j && e.event_type == "download")
      = events.filter
          (fun e => dayOf e.t == dayOf now - 29 + j && e.event_type == "download") := by
    unfold windowEvents
    apply filter_filter_of_imp
    intro e he hq
    rw [Bool.and_eq_true, beq_iff_eq] at hq
    exact decide_eq_true (event_in_window now e _ hnow hdge hq.1)
  by_cases hmem : dayOf now - 29 + j
      ∈ ((windowEvents events now).map (fun e => dayOf e.t)).dedup
  · rw [if_pos hmem]
    simp only []
    rw [hviews, hdls]
  · rw [if_neg hmem]
    simp only []
    have hv0 : events.filter (fun e => dayOf e.t == dayOf now - 29 + j
        && e.event_type == "view") = [] := by
      rw [List.filter_eq_nil_iff]
      intro e he hq
      rw [Bool.and_eq_true, beq_iff_eq] at hq
      apply hmem
      rw [List.mem_dedup, List.mem_map]
      refine ⟨e, ?_, hq.1⟩
      unfold windowEvents
      exact List.mem_filter.mpr
        ⟨he, decide_eq_true (event_in_window now e _ hnow hdge hq.1)⟩
    have hd0 : events.filter (fun e => dayOf e.t == dayOf now - 29 + j
        && e.event_type == "download") = [] := by
      rw [List.filter_eq_nil_iff]
      intro e he hq
      rw [Bool.and_eq_true, beq_iff_eq] at hq
      apply hmem
      rw [List.mem_dedup, List.mem_map]
      refine ⟨e, ?_, hq.1⟩
      unfold windowEvents
      exact List.mem_filter.mpr
        ⟨he, decide_eq_true (event_in_window now e _ hnow hdge hq.1)⟩
    rw [hv0, hd0]
    rfl

/-- Two events on the last day of the window: one view at the stroke of
day 40 and one download ten seconds later. -/
def sampleEvents : List AnalyticsEvent :=
  [⟨1, 1, "view", 40 * 86400⟩, ⟨2, 1, "download", 40 * 86400 + 10⟩]

/-- Claim C9, witness: with now inside day 40, the series has 30
entries, entry 0 is day 11 with zeros, and entry 29 is day 40 with one
view and one download. -/
theorem daily_stats_thirty_days_witness :
    (filledDailyStats sampleEvents (40 * 86400 + 20)).length = 30 ∧
      (filledDailyStats sampleEvents (40 * 86400 + 20)).getD 0 ⟨0, 0, 0⟩
        = ⟨11, 0, 0⟩ ∧
      (filledDailyStats sampleEvents (40 * 86400 + 20)).getD 29 ⟨0, 0, 0⟩
        = ⟨40, 1, 1⟩ := by
  obtain ⟨hlen, hentry⟩ :=
    daily_stats_thirty_days sampleEvents (40 * 86400 + 20) (by norm_num)
  refine ⟨hlen, ?_, ?_⟩
  · rw [hentry 0 (by norm_num)]
    decide
  · rw [hentry 29 (by norm_num)]
    decide

end RepackKing
